import Mathlib

set_option maxRecDepth 100000

/-!
Verification of the `Weather` class in `src/weather.py`.

The Python code is shallowly embedded: the `requests` network library is
modelled as an environment `Env` mapping each URL to the outcome of an HTTP
GET; Python exceptions become an explicit error type `PyErr` threaded through
`Except`; Python `float` values are modelled by the exact decimal
fixed-point type `Dec` (every float arising here comes from `float` on a
plain decimal string, or one product of such values), with `float(text)`
modelled by `parseFloat` and the f-string rendering of a float modelled by
`floatRepr` (canonical decimal form with at least one fractional digit,
which matches CPython shortest repr on decimal strings of moderate length —
the only inputs arising here); `xml.etree.ElementTree` documents are modelled by
`XElem`, a list of leaf children (tag, optional text), which is the only
shape the accessors ever query via `root.find(tag).text`.
-/

/-- Outcome of an HTTP GET as performed by `requests.get`: either a response
with a status code and a body, or a `requests.exceptions.RequestException`
raised for a network-level fault (DNS, connection, timeout). -/
inductive FetchOutcome where
  | response (status : Nat) (body : String)
  | requestException (msg : String)
deriving DecidableEq

/-- The network, modelled as a map from URL to the outcome of fetching it. -/
def Env : Type := String → FetchOutcome

/-- Errors that can escape the Python code, plus the error classes named by
the spec. `attributeError`, `typeError`, `valueError` and `parseError`
(`xml.etree.ElementTree.ParseError`) are the exceptions the source actually
raises (messages abbreviated). `notBoundError`, `missingFieldError` and
`formatError` are modelled from the spec: the spec names these classes in its
error taxonomy, but the source defines no such exception classes, so no code
path below ever produces these three constructors. -/
inductive PyErr where
  | attributeError (msg : String)
  | typeError (msg : String)
  | valueError (msg : String)
  | parseError (msg : String)
  | notBoundError
  | missingFieldError (field : String)
  | formatError (field : String)
deriving DecidableEq

/-- Message of the `AttributeError` raised when `self.root` was never set. -/
def noRootMsg : String := "Weather object has no attribute root"

/-- Message of the `AttributeError` raised by `None.text`
when `root.find(tag)` found no element. -/
def noTextMsg : String := "NoneType object has no attribute text"

/-- Message of the `TypeError` raised by `float(None)`. -/
def floatNoneMsg : String := "float argument must be a string not NoneType"

/-- Message of the `TypeError` raised by `ET.fromstring(None)`. -/
def fromstringNoneMsg : String := "fromstring argument must be a string not NoneType"

/-- Message of the `TypeError` raised by `None + "%"`. -/
def concatNoneMsg : String := "unsupported operand types for + NoneType and str"

/-- Message of the `xml.etree.ElementTree.ParseError` for a malformed body. -/
def xmlSyntaxMsg : String := "syntax error"

/-- Message of the `ValueError` raised by `float(s)` on an unparseable `s`. -/
def floatConvMsg (s : String) : String :=
  "could not convert string to float: " ++ s

/-- Numeric value of a list of decimal digit characters. -/
def digitsVal (l : List Char) : Nat :=
  l.foldl (fun a c => 10 * a + (c.toNat - 48)) 0

/-- A Python float value on the decimal subset arising in this program: the
exact number `man / 10 ^ exp`. Every float the source ever builds is
`float(<plain decimal text>)` or one product of two such values, and all of
these are exactly representable (CPython rounds them to binary64 but its
shortest-repr printing recovers the same decimal for the moderate-length
decimals arising here, so the model is observation-equivalent). -/
structure Dec where
  man : Int
  exp : Nat
deriving DecidableEq

/-- Negation on `Dec` (for a leading `-` sign in `float(s)`). -/
def Dec.neg (d : Dec) : Dec := ⟨-d.man, d.exp⟩

/-- Exact multiplication on `Dec`, modelling the product
`visibility_mi * 1.609344` (exact in decimal; binary64 rounding of these
short decimals does not change the printed result). -/
def Dec.mul (a b : Dec) : Dec := ⟨a.man * b.man, a.exp + b.exp⟩

/-- The rational number a `Dec` denotes. -/
def Dec.toRat (d : Dec) : ℚ := (d.man : ℚ) / 10 ^ d.exp

/-- The float literal `1.609344` from the source. -/
def lit1609344 : Dec := ⟨1609344, 6⟩

/-- Unsigned part of Python `float(s)`: decimal digits with an optional
fractional part (`"72"`, `"72.5"`, `"72."`, `".5"`). -/
def parseUFloat (cs : List Char) : Option Dec :=
  let ip := cs.takeWhile Char.isDigit
  let rest := cs.dropWhile Char.isDigit
  match rest with
  | [] => if ip.isEmpty then none else some ⟨Int.ofNat (digitsVal ip), 0⟩
  | '.' :: fp =>
      if fp.all Char.isDigit && !(ip.isEmpty && fp.isEmpty) then
        some ⟨Int.ofNat (digitsVal ip * 10 ^ fp.length + digitsVal fp), fp.length⟩
      else none
  | _ => none

/-- Whitespace stripped by Python `float` around its argument. -/
def isPyWs (c : Char) : Bool :=
  c == ' ' || c == '\t' || c == '\n' || c == '\r'

/-- Strip leading and trailing whitespace from a character list. -/
def trimWs (cs : List Char) : List Char :=
  ((cs.dropWhile isPyWs).reverse.dropWhile isPyWs).reverse

/-- Model of Python `float(s)` on its plain-decimal subset: optional
surrounding whitespace, optional sign, digits with an optional fractional
part. (Exponents, `inf`/`nan`, underscores and non-ASCII digits, which
CPython also accepts, are outside the modelled subset; none of the feed
fields use them.) -/
def parseFloat (s : String) : Option Dec :=
  match trimWs s.toList with
  | '-' :: rest => (parseUFloat rest).map Dec.neg
  | '+' :: rest => parseUFloat rest
  | cs => parseUFloat cs

/-- Remove factors of 10 common to the mantissa and the exponent:
`stripZerosN m e` divides `m` by 10 while possible but at most `e` times. -/
def stripZerosN : Nat → Nat → Nat × Nat
  | m, 0 => (m, 0)
  | m, e + 1 => if m % 10 = 0 then stripZerosN (m / 10) e else (m, e + 1)

/-- Left-pad a digit list with `'0'` up to length `n`. -/
def padZeros (ds : List Char) (n : Nat) : List Char :=
  List.replicate (n - ds.length) '0' ++ ds

/-- Model of CPython float rendering (`str`/f-string): minimal decimal
digits, always at least one fractional digit (`72 ↦ "72.0"`,
`72.50 ↦ "72.5"`, `0.25 ↦ "0.25"`). This agrees with CPython shortest repr
on every value arising here. -/
def floatRepr (d : Dec) : String :=
  let sgn := if d.man < 0 then "-" else ""
  let p := stripZerosN d.man.natAbs d.exp
  if p.2 = 0 then sgn ++ toString p.1 ++ ".0"
  else
    let ds := padZeros (toString p.1).toList (p.2 + 1)
    sgn ++ String.mk (ds.take (ds.length - p.2)) ++ "." ++
      String.mk (ds.drop (ds.length - p.2))

/-- A parsed XML element as the accessors see it: the root of the feed
document, holding its direct children as `(tag, text)` leaves. `text = none`
models an element whose `.text` is Python `None`. This is the only shape
`Weather` ever queries (`self.root.find(tag).text`). -/
def XElem : Type := List (String × Option String)

instance : DecidableEq XElem := by
  unfold XElem
  infer_instance

/-- Model of `root.find(tag)`: the first direct child with the given tag, or
`none` (Python `None`) when no such child exists. The found element is
represented by its text. -/
def findE (r : XElem) (tag : String) : Option (Option String) :=
  (r.find? (fun p => p.1 == tag)).map (fun p => p.2)

/-- A character allowed in an XML tag name. -/
def isNameChar (c : Char) : Bool :=
  c.isAlphanum || c == '_' || c == '-' || c == '.' || c == ':'

/-- XML whitespace. -/
def isWsChar (c : Char) : Bool :=
  c == ' ' || c == '\n' || c == '\t' || c == '\r'

/-- Drop leading whitespace. -/
def skipWs (cs : List Char) : List Char := cs.dropWhile isWsChar

/-- Read an opening tag `<name>`; return the name and the rest. -/
def parseTagOpen (cs : List Char) : Option (String × List Char) :=
  match cs with
  | '<' :: rest =>
      let nm := rest.takeWhile isNameChar
      match rest.dropWhile isNameChar with
      | '>' :: rest2 => if nm.isEmpty then none else some (String.mk nm, rest2)
      | _ => none
  | _ => none

/-- Read a closing tag `</tag>` for the given tag; return the rest. -/
def parseTagClose (tag : String) (cs : List Char) : Option (List Char) :=
  match cs with
  | '<' :: '/' :: rest =>
      let nm := rest.takeWhile isNameChar
      match rest.dropWhile isNameChar with
      | '>' :: rest2 => if String.mk nm == tag then some rest2 else none
      | _ => none
  | _ => none

/-- Read one leaf child element `<tag>text</tag>`; empty content models a
Python `None` text. -/
def parseLeafElem (cs : List Char) : Option ((String × Option String) × List Char) :=
  match parseTagOpen cs with
  | none => none
  | some (tag, rest) =>
      let txt := rest.takeWhile (fun c => c != '<')
      match parseTagClose tag (rest.dropWhile (fun c => c != '<')) with
      | none => none
      | some rest2 =>
          some ((tag, if txt.isEmpty then none else some (String.mk txt)), rest2)

/-- Read the whitespace-separated sequence of leaf children, stopping in
front of a closing tag. The fuel argument bounds recursion by the input
length. -/
def parseChildList : Nat → List Char → Option (List (String × Option String) × List Char)
  | 0, _ => none
  | fuel + 1, cs =>
      match skipWs cs with
      | '<' :: '/' :: rest => some ([], '<' :: '/' :: rest)
      | cs1 =>
          match parseLeafElem cs1 with
          | none => none
          | some (child, rest) =>
              match parseChildList fuel rest with
              | none => none
              | some (kids, rest2) => some (child :: kids, rest2)

/-- Model of `xml.etree.ElementTree` parsing, restricted to the shape of the
feed: a root element containing optional text and whitespace-separated leaf
children (no attributes, no deeper nesting, no declarations or entities).
Returns `none` exactly when the body is not well-formed in this subset. -/
def parseXml (s : String) : Option XElem :=
  match parseTagOpen (skipWs s.toList) with
  | none => none
  | some (tag, rest) =>
      let body := rest.dropWhile (fun c => c != '<')
      match parseChildList (body.length + 1) body with
      | none => none
      | some (kids, rest2) =>
          match parseTagClose tag rest2 with
          | none => none
          | some rest3 => if (skipWs rest3).isEmpty then some kids else none

/-- Model of `ET.fromstring`: `TypeError` on `None` (the value stored after a
failed fetch), `ParseError` on a malformed body, the parsed root otherwise. -/
def ET_fromstring (x : Option String) : Except PyErr XElem :=
  match x with
  | none => Except.error (PyErr.typeError fromstringNoneMsg)
  | some s =>
      match parseXml s with
      | some e => Except.ok e
      | none => Except.error (PyErr.parseError xmlSyntaxMsg)

/-- The instance state of a Python `Weather` object. Every field is `Option`:
`none` for `root` models the attribute never having been assigned (it is
only ever assigned on a successful parse), and `none` elsewhere models the
Python value `None`. -/
structure Weather where
  _location : Option String
  weather_observation_url : Option String
  weather_observation_raw : Option String
  root : Option XElem
deriving DecidableEq

/-- The state of a `Weather()` constructed without a location (the `else`
branch of `__init__`): `_location`, `weather_observation_url` and
`weather_observation_raw` are `None` and `root` was never assigned. -/
def emptyWeather : Weather :=
  { _location := none, weather_observation_url := none,
    weather_observation_raw := none, root := none }

/-- The static station lookup table `LOCATIONS`. -/
def LOCATIONS : List (String × String) := [("KLNK", "Lincoln"), ("KOMA", "Omaha")]

/-- The URL built by `set_location`:
`f"https://w1.weather.gov/xml/current_obs/{self._location}.xml"`. -/
def buildUrl (code : String) : String :=
  "https://w1.weather.gov/xml/current_obs/" ++ code ++ ".xml"

/-- `Weather.read_weather_observation`: GET the URL; on status 200 return the
body; on any other status print a diagnostic and return `None`; on a
`RequestException` print a diagnostic and return `None`. The second component
collects the printed lines. -/
def read_weather_observation (env : Env) (url : String) : Option String × List String :=
  match env url with
  | FetchOutcome.response st body =>
      if st = 200 then (some body, [])
      else (none, ["Failed to retrieve data. Status code: " ++ toString st])
  | FetchOutcome.requestException m => (none, ["An error occurred: " ++ m])

deriving instance DecidableEq for Except

/-- Result of running `set_location` (or `__init__`): the object state after
the call — Python keeps the mutations made before an exception — together
with the outcome (`ok` or the uncaught exception) and the printed lines. -/
structure SetResult where
  state : Weather
  outcome : Except PyErr Unit
  printed : List String
deriving DecidableEq

/-- `Weather.set_location`: assigns `_location`, the URL and the raw fetch
result in order, then parses the raw result with `ET.fromstring`; the parse
result is assigned to `root` only if parsing succeeds, while a parse
exception propagates with the first three assignments already made. -/
def set_location (env : Env) (w : Weather) (code : String) : SetResult :=
  match ET_fromstring (read_weather_observation env (buildUrl code)).1 with
  | Except.ok r =>
      { state := { w with _location := some code,
                          weather_observation_url := some (buildUrl code),
                          weather_observation_raw :=
                            (read_weather_observation env (buildUrl code)).1,
                          root := some r },
        outcome := Except.ok (),
        printed := (read_weather_observation env (buildUrl code)).2 }
  | Except.error e =>
      { state := { w with _location := some code,
                          weather_observation_url := some (buildUrl code),
                          weather_observation_raw :=
                            (read_weather_observation env (buildUrl code)).1 },
        outcome := Except.error e,
        printed := (read_weather_observation env (buildUrl code)).2 }

/-- `Weather.__init__`: with a truthy `observation_location` it runs
`set_location` on the fresh object; otherwise it sets the three plain fields
to `None` and never touches `root`. -/
def weatherInit (env : Env) (observation_location : Option String) : SetResult :=
  match observation_location with
  | some code =>
      if code.isEmpty then
        { state := emptyWeather, outcome := Except.ok (), printed := [] }
      else set_location env emptyWeather code
  | none => { state := emptyWeather, outcome := Except.ok (), printed := [] }

/-- Attribute lookup `self.root`: `AttributeError` if `root` was never
assigned. -/
def getRoot (w : Weather) : Except PyErr XElem :=
  match w.root with
  | some r => Except.ok r
  | none => Except.error (PyErr.attributeError noRootMsg)

/-- The expression `elem.text` where `elem` is the result of `find`:
`AttributeError` when `find` returned `None`. -/
def textOf (fo : Option (Option String)) : Except PyErr (Option String) :=
  match fo with
  | none => Except.error (PyErr.attributeError noTextMsg)
  | some t => Except.ok t

/-- The expression `float(x)` where `x` is an element text:
`TypeError` on `None`, `ValueError` on an unparseable string. -/
def pyFloat (v : Option String) : Except PyErr Dec :=
  match v with
  | none => Except.error (PyErr.typeError floatNoneMsg)
  | some s =>
      match parseFloat s with
      | some q => Except.ok q
      | none => Except.error (PyErr.valueError (floatConvMsg s))

/-- The expression `self.root.find(tag).text`. -/
def readTextField (w : Weather) (tag : String) : Except PyErr (Option String) :=
  match getRoot w with
  | Except.error e => Except.error e
  | Except.ok r => textOf (findE r tag)

/-- The expression `float(self.root.find(tag).text)`. -/
def readFloatField (w : Weather) (tag : String) : Except PyErr Dec :=
  match readTextField w tag with
  | Except.error e => Except.error e
  | Except.ok t => pyFloat t

/-- `Weather.get_location`: `self.root.find("location").text`. Each accessor
returns its value (or the exception) together with the instance state after
the call; the bodies only read, so the state is returned unchanged. -/
def get_location (w : Weather) : Except PyErr (Option String) × Weather :=
  (readTextField w "location", w)

/-- `Weather.temperature`: `float` of `temp_f` and of `temp_c`, in that
order, rendered as `"<F>°F (<C>°C)"`. -/
def temperature (w : Weather) : Except PyErr String × Weather :=
  (match readFloatField w "temp_f" with
   | Except.error e => Except.error e
   | Except.ok temp_f =>
       match readFloatField w "temp_c" with
       | Except.error e => Except.error e
       | Except.ok temp_c =>
           Except.ok (floatRepr temp_f ++ "°F (" ++ floatRepr temp_c ++ "°C)"),
   w)

/-- `Weather.relative_humidity`: `self.root.find("relative_humidity").text + "%"`
with no numeric validation of the text. -/
def relative_humidity (w : Weather) : Except PyErr String × Weather :=
  (match readTextField w "relative_humidity" with
   | Except.error e => Except.error e
   | Except.ok none => Except.error (PyErr.typeError concatNoneMsg)
   | Except.ok (some s) => Except.ok (s ++ "%"),
   w)

/-- `Weather.weather`: the verbatim `weather` element text. -/
def weather (w : Weather) : Except PyErr (Option String) × Weather :=
  (readTextField w "weather", w)

/-- `Weather.wind_info`: the verbatim `wind_string` element text. -/
def wind_info (w : Weather) : Except PyErr (Option String) × Weather :=
  (readTextField w "wind_string", w)

/-- `Weather.dewpoint`: `float` of `dewpoint_c` and of `dewpoint_f`, in that
order, rendered as `"<C>°C (<F>°F)"` — Celsius first. -/
def dewpoint (w : Weather) : Except PyErr String × Weather :=
  (match readFloatField w "dewpoint_c" with
   | Except.error e => Except.error e
   | Except.ok dewpoint_c =>
       match readFloatField w "dewpoint_f" with
       | Except.error e => Except.error e
       | Except.ok dewpoint_f =>
           Except.ok (floatRepr dewpoint_c ++ "°C (" ++ floatRepr dewpoint_f ++ "°F)"),
   w)

/-- `Weather.pressure`: `float` of `pressure_mb` rendered as `"<mb> mb"`. -/
def pressure (w : Weather) : Except PyErr String × Weather :=
  (match readFloatField w "pressure_mb" with
   | Except.error e => Except.error e
   | Except.ok pressure_mb => Except.ok (floatRepr pressure_mb ++ " mb"),
   w)

/-- `Weather.altimeter`: `float` of `pressure_in` rendered as `"<in> in Hg"`. -/
def altimeter (w : Weather) : Except PyErr String × Weather :=
  (match readFloatField w "pressure_in" with
   | Except.error e => Except.error e
   | Except.ok altimeter_in => Except.ok (floatRepr altimeter_in ++ " in Hg"),
   w)

/-- `Weather.visibility`: `float` of `visibility_mi`, kilometres obtained by
multiplying by the literal `1.609344`, rendered as `"<mi> mi (<km> km)"`. -/
def visibility (w : Weather) : Except PyErr String × Weather :=
  (match readFloatField w "visibility_mi" with
   | Except.error e => Except.error e
   | Except.ok visibility_mi =>
       Except.ok (floatRepr visibility_mi ++ " mi (" ++
         floatRepr (Dec.mul visibility_mi lit1609344) ++ " km)"),
   w)

/-- A network on which every URL answers HTTP 404. -/
def env404 : Env := fun _ => FetchOutcome.response 404 "Not Found"

/-- A network on which every URL answers HTTP 500. -/
def env500 : Env := fun _ => FetchOutcome.response 500 "Server Error"

/-- A network on which every GET raises a `RequestException`. -/
def envDown : Env := fun _ => FetchOutcome.requestException "connection refused"

/-- A network answering HTTP 200 with a body that is not XML. -/
def envNotXml : Env := fun _ => FetchOutcome.response 200 "not xml"

/-- A network answering each status `st` on every URL. -/
def envStatus (st : Nat) : Env := fun _ => FetchOutcome.response st "x"

/-- The KLNK feed body of the end-to-end example, with the fields the
formatting claims exercise. -/
def klnkBody : String :=
  "<current_observation><location>Lincoln, Lincoln Municipal Airport, NE</location><temp_f>72.0</temp_f><temp_c>22.2</temp_c><dewpoint_c>7.2</dewpoint_c><dewpoint_f>45.0</dewpoint_f><relative_humidity>39</relative_humidity><weather>Fair</weather><wind_string>Calm</wind_string><pressure_mb>1017.1</pressure_mb><pressure_in>30.03</pressure_in><visibility_mi>10.0</visibility_mi></current_observation>"

/-- A network serving `klnkBody` with status 200 on every URL. -/
def envKlnk : Env := fun _ => FetchOutcome.response 200 klnkBody

/-- The Observation obtained by binding station KLNK against `envKlnk`. -/
def wKlnk : Weather := (set_location envKlnk emptyWeather "KLNK").state

/-- An unbound Observation: `Weather()` constructed with no location. -/
def wUnbound : Weather := (weatherInit envDown none).state

/-- A bound Observation whose `temp_f` text is the integer-formatted `"72"`. -/
def wIntTemp : Weather :=
  { _location := some "KLNK", weather_observation_url := some (buildUrl "KLNK"),
    weather_observation_raw := none,
    root := some [("temp_f", some "72"), ("temp_c", some "22.2")] }

/-- A bound Observation whose `relative_humidity` text is not a number. -/
def wBadHum : Weather :=
  { _location := some "KLNK", weather_observation_url := some (buildUrl "KLNK"),
    weather_observation_raw := none,
    root := some [("relative_humidity", some "abc")] }

/-- A bound Observation whose parsed tree has no children at all. -/
def wNoFields : Weather :=
  { _location := some "KLNK", weather_observation_url := some (buildUrl "KLNK"),
    weather_observation_raw := none, root := some [] }

/-- The parsed tree of `klnkBody` as a literal child list. -/
def klnkRoot : XElem :=
  [("location", some "Lincoln, Lincoln Municipal Airport, NE"),
   ("temp_f", some "72.0"), ("temp_c", some "22.2"),
   ("dewpoint_c", some "7.2"), ("dewpoint_f", some "45.0"),
   ("relative_humidity", some "39"), ("weather", some "Fair"),
   ("wind_string", some "Calm"), ("pressure_mb", some "1017.1"),
   ("pressure_in", some "30.03"), ("visibility_mi", some "10.0")]

/-- Claim C10: every field accessor on an Observation is read-only: it
touches no instance field (`_location`, `weather_observation_url`,
`weather_observation_raw`, `root`) — its Lean embedding is a function of the
instance state alone, consulting no network environment — and therefore two
consecutive calls to the same accessor return equal results. -/
theorem accessors_read_only (w : Weather) :
    (get_location w).2 = w ∧ (temperature w).2 = w ∧
    (relative_humidity w).2 = w ∧ (weather w).2 = w ∧
    (wind_info w).2 = w ∧ (dewpoint w).2 = w ∧
    (pressure w).2 = w ∧ (altimeter w).2 = w ∧ (visibility w).2 = w ∧
    (get_location (get_location w).2).1 = (get_location w).1 ∧
    (temperature (temperature w).2).1 = (temperature w).1 ∧
    (relative_humidity (relative_humidity w).2).1 = (relative_humidity w).1 ∧
    (weather (weather w).2).1 = (weather w).1 ∧
    (wind_info (wind_info w).2).1 = (wind_info w).1 ∧
    (dewpoint (dewpoint w).2).1 = (dewpoint w).1 ∧
    (pressure (pressure w).2).1 = (pressure w).1 ∧
    (altimeter (altimeter w).2).1 = (altimeter w).1 ∧
    (visibility (visibility w).2).1 = (visibility w).1 :=
  ⟨rfl, rfl, rfl, rfl, rfl, rfl, rfl, rfl, rfl,
   rfl, rfl, rfl, rfl, rfl, rfl, rfl, rfl, rfl⟩

/-- Claim C8: `set_location` builds the request URL by instantiating exactly
the pattern `https://w1.weather.gov/xml/current_obs/<code>.xml` with the
supplied code, stores it, and passes exactly that URL to the fetch: the
result depends on the network only through its answer at that URL. -/
theorem set_location_url_pattern (env : Env) (w : Weather) (code : String) :
    (set_location env w code).state.weather_observation_url = some (buildUrl code) ∧
    buildUrl code = "https://w1.weather.gov/xml/current_obs/" ++ code ++ ".xml" ∧
    ∀ env2 : Env, env2 (buildUrl code) = env (buildUrl code) →
      set_location env2 w code = set_location env w code := by
  refine ⟨?_, rfl, ?_⟩
  · unfold set_location
    split <;> rfl
  · intro env2 h
    have hr : read_weather_observation env2 (buildUrl code) =
        read_weather_observation env (buildUrl code) := by
      unfold read_weather_observation
      rw [h]
    unfold set_location
    rw [hr]

/-- Witness for C8 at station KLNK: two networks agreeing on the KLNK feed
URL produce identical `set_location` results. -/
theorem set_location_url_pattern_witness :
    set_location (fun u => if u = buildUrl "KLNK" then FetchOutcome.response 404 "Not Found"
        else FetchOutcome.response 200 "y") emptyWeather "KLNK" =
      set_location env404 emptyWeather "KLNK" :=
  (set_location_url_pattern env404 emptyWeather "KLNK").2.2 _ (by simp [env404])

/-- Claim C9: a fetch succeeding with HTTP 200 but returning a body that is
not well-formed XML makes `set_location` fail with the XML `ParseError` — an
error distinct from the `TypeError` produced on the fetch-failure path — and
never with a silent empty result. -/
theorem set_location_parse_error_distinct (env : Env) (w : Weather)
    (code body : String)
    (h : env (buildUrl code) = FetchOutcome.response 200 body)
    (hp : parseXml body = none) :
    (set_location env w code).outcome = Except.error (PyErr.parseError xmlSyntaxMsg) ∧
    (∀ m, (Except.error (PyErr.parseError xmlSyntaxMsg) : Except PyErr Unit) ≠
      Except.error (PyErr.typeError m)) ∧
    (∀ (env2 : Env) (w2 : Weather) (code2 : String) (st : Nat) (body2 : String),
      env2 (buildUrl code2) = FetchOutcome.response st body2 → st ≠ 200 →
      (set_location env2 w2 code2).outcome =
        Except.error (PyErr.typeError fromstringNoneMsg)) := by
  have hr : read_weather_observation env (buildUrl code) = (some body, []) := by
    unfold read_weather_observation
    rw [h]
    simp
  refine ⟨?_, ?_, ?_⟩
  · unfold set_location
    rw [hr]
    simp [ET_fromstring, hp]
  · intro m hEq
    injection hEq with h2
    exact PyErr.noConfusion h2
  · intro env2 w2 code2 st body2 h2 hst
    have hr2 : read_weather_observation env2 (buildUrl code2) =
        (none, ["Failed to retrieve data. Status code: " ++ toString st]) := by
      unfold read_weather_observation
      rw [h2]
      simp [hst]
    unfold set_location
    rw [hr2]
    simp [ET_fromstring]

/-- Witness for C9: binding against a network that answers HTTP 200 with the
body `"not xml"` ends in the XML `ParseError`. -/
theorem set_location_parse_error_distinct_witness :
    (set_location envNotXml emptyWeather "KLNK").outcome =
      Except.error (PyErr.parseError xmlSyntaxMsg) :=
  (set_location_parse_error_distinct envNotXml emptyWeather "KLNK" "not xml"
    rfl rfl).1

/-- Multiplication on `Dec` denotes rational multiplication. -/
theorem Dec.toRat_mul (a b : Dec) : (Dec.mul a b).toRat = a.toRat * b.toRat := by
  unfold Dec.mul Dec.toRat
  push_cast [pow_add]
  rw [div_mul_div_comm]

/-- Claim C6: on a Bound Observation with a valid numeric `visibility_mi`
field, `visibility` returns `"<mi> mi (<km> km)"` where the rendered km
value denotes exactly the rational number denoted by the mi value multiplied
by the constant 1.609344 (the model computes exactly, so the equality holds
outright, a fortiori within floating-point tolerance). -/
theorem visibility_km_conversion (w : Weather) (r : XElem) (s : String) (mi : Dec)
    (hw : w.root = some r)
    (hf : findE r "visibility_mi" = some (some s))
    (hp : parseFloat s = some mi) :
    ∃ km : Dec, Dec.toRat km = Dec.toRat mi * ((1609344 : ℚ) / 1000000) ∧
      (visibility w).1 = Except.ok (floatRepr mi ++ " mi (" ++ floatRepr km ++ " km)") := by
  refine ⟨Dec.mul mi lit1609344, ?_, ?_⟩
  · rw [Dec.toRat_mul]
    norm_num [lit1609344, Dec.toRat]
  · simp [visibility, readFloatField, readTextField, getRoot, hw, hf, textOf, pyFloat, hp]

/-- Witness for C6: the KLNK Observation, with `visibility_mi` text
`"10.0"`, renders 10 mi with a km value denoting exactly 10 × 1.609344. -/
theorem visibility_km_conversion_witness :
    ∃ km : Dec, Dec.toRat km = Dec.toRat ⟨100, 1⟩ * ((1609344 : ℚ) / 1000000) ∧
      (visibility wKlnk).1 =
        Except.ok (floatRepr ⟨100, 1⟩ ++ " mi (" ++ floatRepr km ++ " km)") :=
  visibility_km_conversion wKlnk klnkRoot "10.0" ⟨100, 1⟩ rfl rfl rfl

/-- Claim C7: `dewpoint` formats its two numeric fields as `"<C>°C (<F>°F)"`
with Celsius first, while `temperature` puts Fahrenheit first — the field
order of the two accessors is swapped. -/
theorem dewpoint_order_swapped (w : Weather) (r : XElem)
    (sc sf stf stc : String) (c f tf tc : Dec)
    (hw : w.root = some r)
    (h1 : findE r "dewpoint_c" = some (some sc)) (h2 : parseFloat sc = some c)
    (h3 : findE r "dewpoint_f" = some (some sf)) (h4 : parseFloat sf = some f)
    (h5 : findE r "temp_f" = some (some stf)) (h6 : parseFloat stf = some tf)
    (h7 : findE r "temp_c" = some (some stc)) (h8 : parseFloat stc = some tc) :
    (dewpoint w).1 = Except.ok (floatRepr c ++ "°C (" ++ floatRepr f ++ "°F)") ∧
    (temperature w).1 = Except.ok (floatRepr tf ++ "°F (" ++ floatRepr tc ++ "°C)") := by
  constructor
  · simp [dewpoint, readFloatField, readTextField, getRoot, hw, h1, h3, textOf,
      pyFloat, h2, h4]
  · simp [temperature, readFloatField, readTextField, getRoot, hw, h5, h7, textOf,
      pyFloat, h6, h8]

/-- Witness for C7 on the KLNK Observation: dewpoint 7.2°C (45.0°F) against
temperature 72.0°F (22.2°C). -/
theorem dewpoint_order_swapped_witness :
    (dewpoint wKlnk).1 =
      Except.ok (floatRepr ⟨72, 1⟩ ++ "°C (" ++ floatRepr ⟨450, 1⟩ ++ "°F)") ∧
    (temperature wKlnk).1 =
      Except.ok (floatRepr ⟨720, 1⟩ ++ "°F (" ++ floatRepr ⟨222, 1⟩ ++ "°C)") :=
  dewpoint_order_swapped wKlnk klnkRoot "7.2" "45.0" "72.0" "22.2"
    ⟨72, 1⟩ ⟨450, 1⟩ ⟨720, 1⟩ ⟨222, 1⟩ rfl rfl rfl rfl rfl rfl rfl rfl rfl

/-- Counterexample to claim C1 as stated: binding station KLNK against a
network answering HTTP 404 raises a `TypeError` out of `set_location`, and
the Observation is NOT left in its prior (Unbound) state — `_location` now
holds the new code while `root` is still absent, a partially-updated state
observable to any caller that catches the exception. -/
theorem set_location_failure_mutates_state :
    (set_location env404 emptyWeather "KLNK").outcome =
      Except.error (PyErr.typeError fromstringNoneMsg) ∧
    (set_location env404 emptyWeather "KLNK").state ≠ emptyWeather ∧
    (set_location env404 emptyWeather "KLNK").state._location = some "KLNK" ∧
    (set_location env404 emptyWeather "KLNK").state.root = none :=
  ⟨rfl, by decide, rfl, rfl⟩

/-- Claim C1 amended: on a failing `set_location` only the parsed tree
(`root`) keeps its prior value — the Unbound→Bound transition of the parsed
tree indeed happens only through a successful fetch-and-parse — while
`_location`, `weather_observation_url` and `weather_observation_raw` are
overwritten unconditionally, so a failed bind leaves an observable
partially-updated state (new location and URL with the old or absent parsed
tree), not the prior state. -/
theorem set_location_partial_update (env : Env) (w : Weather) (code : String) :
    (∀ e, (set_location env w code).outcome = Except.error e →
      (set_location env w code).state.root = w.root) ∧
    (set_location env w code).state._location = some code ∧
    (set_location env w code).state.weather_observation_url = some (buildUrl code) ∧
    (set_location env w code).state.weather_observation_raw =
      (read_weather_observation env (buildUrl code)).1 := by
  refine ⟨?_, ?_, ?_, ?_⟩
  · intro e he
    cases hE : ET_fromstring (read_weather_observation env (buildUrl code)).1 with
    | ok r =>
        rw [set_location] at he
        rw [hE] at he
        exact absurd he (by simp)
    | error e2 =>
        rw [set_location, hE]
  · unfold set_location
    split <;> rfl
  · unfold set_location
    split <;> rfl
  · unfold set_location
    split <;> rfl

/-- Witness for C1 (amended) at a concrete failed bind: after `set_location`
on a 404 network, `root` still has its prior (absent) value. -/
theorem set_location_partial_update_witness :
    (set_location env404 emptyWeather "KOMA").state.root = emptyWeather.root :=
  (set_location_partial_update env404 emptyWeather "KOMA").1
    (PyErr.typeError fromstringNoneMsg) rfl

/-- Counterexample to claim C2 as stated: on an Observation constructed
without a station, the `temperature` accessor fails with the generic
`AttributeError` for the absent `root` attribute — the same exception class
Python uses for any missing attribute — not with a dedicated
`NotBoundError` (the source defines no such class). -/
theorem unbound_accessor_error_class :
    (temperature wUnbound).1 = Except.error (PyErr.attributeError noRootMsg) ∧
    (temperature wUnbound).1 ≠ Except.error PyErr.notBoundError :=
  ⟨rfl, by decide⟩

/-- Claim C2 amended: on an Observation on which no `set_location` has
succeeded (`root` never assigned), every field accessor fails by raising
`AttributeError` for the absent `root` attribute; none returns a default
value. The failure is this generic `AttributeError`, not a dedicated
`NotBoundError`. -/
theorem unbound_accessors_attributeError (w : Weather) (h : w.root = none) :
    (get_location w).1 = Except.error (PyErr.attributeError noRootMsg) ∧
    (temperature w).1 = Except.error (PyErr.attributeError noRootMsg) ∧
    (relative_humidity w).1 = Except.error (PyErr.attributeError noRootMsg) ∧
    (weather w).1 = Except.error (PyErr.attributeError noRootMsg) ∧
    (wind_info w).1 = Except.error (PyErr.attributeError noRootMsg) ∧
    (dewpoint w).1 = Except.error (PyErr.attributeError noRootMsg) ∧
    (pressure w).1 = Except.error (PyErr.attributeError noRootMsg) ∧
    (altimeter w).1 = Except.error (PyErr.attributeError noRootMsg) ∧
    (visibility w).1 = Except.error (PyErr.attributeError noRootMsg) := by
  refine ⟨?_, ?_, ?_, ?_, ?_, ?_, ?_, ?_, ?_⟩ <;>
    simp [get_location, temperature, relative_humidity, weather, wind_info,
      dewpoint, pressure, altimeter, visibility, readFloatField, readTextField,
      getRoot, h]

/-- Witness for C2 (amended) on the concrete Observation built by
`Weather()` with no location. -/
theorem unbound_accessors_attributeError_witness :
    (get_location wUnbound).1 = Except.error (PyErr.attributeError noRootMsg) ∧
    (temperature wUnbound).1 = Except.error (PyErr.attributeError noRootMsg) ∧
    (relative_humidity wUnbound).1 = Except.error (PyErr.attributeError noRootMsg) ∧
    (weather wUnbound).1 = Except.error (PyErr.attributeError noRootMsg) ∧
    (wind_info wUnbound).1 = Except.error (PyErr.attributeError noRootMsg) ∧
    (dewpoint wUnbound).1 = Except.error (PyErr.attributeError noRootMsg) ∧
    (pressure wUnbound).1 = Except.error (PyErr.attributeError noRootMsg) ∧
    (altimeter wUnbound).1 = Except.error (PyErr.attributeError noRootMsg) ∧
    (visibility wUnbound).1 = Except.error (PyErr.attributeError noRootMsg) :=
  unbound_accessors_attributeError wUnbound rfl

/-- Counterexample to claim C3 as stated: the value the fetch returns to its
caller on failure is the bare `None`, identical for HTTP 404, HTTP 500 and a
network fault, so no function can recover the observed status code from the
error result — the result does not carry the status (it is only printed). -/
theorem fetch_result_carries_no_status :
    (read_weather_observation env404 "u").1 = none ∧
    (read_weather_observation env500 "u").1 = none ∧
    (read_weather_observation envDown "u").1 = none ∧
    ¬ ∃ f : Option String → Nat, ∀ st : Nat, st ≠ 200 →
        f (read_weather_observation (envStatus st) "u").1 = st := by
  refine ⟨rfl, rfl, rfl, ?_⟩
  rintro ⟨f, hf⟩
  have h1 := hf 404 (by decide)
  have h2 := hf 500 (by decide)
  have e1 : (read_weather_observation (envStatus 404) "u").1 = none := rfl
  have e2 : (read_weather_observation (envStatus 500) "u").1 = none := rfl
  rw [e1] at h1
  rw [e2] at h2
  rw [h1] at h2
  exact absurd h2 (by decide)

/-- Claim C3 amended: the fetch treats any HTTP status other than 200 and
every `RequestException` (network fault) as a failure; every failure path
returns `None` as the result — so the component raises nothing uncaught —
together with a printed diagnostic line that carries the observed status
code or the fault description; the returned value itself carries neither. -/
theorem read_weather_observation_failure_paths (env : Env) (url : String) :
    (∀ body, env url = FetchOutcome.response 200 body →
      read_weather_observation env url = (some body, [])) ∧
    (∀ st body, env url = FetchOutcome.response st body → st ≠ 200 →
      read_weather_observation env url =
        (none, ["Failed to retrieve data. Status code: " ++ toString st])) ∧
    (∀ m, env url = FetchOutcome.requestException m →
      read_weather_observation env url = (none, ["An error occurred: " ++ m])) := by
  refine ⟨?_, ?_, ?_⟩
  · intro body h
    unfold read_weather_observation
    rw [h]
    simp
  · intro st body h hst
    unfold read_weather_observation
    rw [h]
    simp [hst]
  · intro m h
    unfold read_weather_observation
    rw [h]

/-- Witness for C3 (amended) at a concrete 404: the result is `None` plus
the diagnostic line carrying the status code. -/
theorem read_weather_observation_failure_paths_witness :
    read_weather_observation (envStatus 404) "u" =
      (none, ["Failed to retrieve data. Status code: " ++ toString 404]) :=
  (read_weather_observation_failure_paths (envStatus 404) "u").2.1 404 "x"
    rfl (by decide)

/-- Counterexample to claim C4 as stated: `relative_humidity` — listed by
the claim among the numeric accessors — returns `"abc%"` for the
non-numeric text `"abc"` instead of failing with a `FormatError`; and on a
tree lacking `temp_f`, `temperature` fails with the generic
`AttributeError`, not a dedicated `MissingFieldError` (the source defines
neither error class). -/
theorem bound_accessor_error_classes :
    (relative_humidity wBadHum).1 = Except.ok "abc%" ∧
    (¬ ∃ fld, (relative_humidity wBadHum).1 = Except.error (PyErr.formatError fld)) ∧
    (temperature wNoFields).1 = Except.error (PyErr.attributeError noTextMsg) ∧
    (¬ ∃ fld, (temperature wNoFields).1 = Except.error (PyErr.missingFieldError fld)) := by
  refine ⟨rfl, ?_, rfl, ?_⟩
  · rintro ⟨fld, h⟩
    rw [show (relative_humidity wBadHum).1 = Except.ok "abc%" from rfl] at h
    exact Except.noConfusion h
  · rintro ⟨fld, h⟩
    rw [show (temperature wNoFields).1 =
      Except.error (PyErr.attributeError noTextMsg) from rfl] at h
    injection h with h2
    exact PyErr.noConfusion h2

/-- Claim C4 amended: on a Bound Observation, each float-parsing accessor
(`temperature`, `dewpoint`, `pressure`, `altimeter`, `visibility`) fails
with `AttributeError` when its expected element is absent and with
`ValueError` when the element text is not parseable as a number — never
silently substituting a default — while `relative_humidity` fails with
`AttributeError` when its element is absent but passes any present text
through unvalidated with `"%"` appended. -/
theorem bound_accessor_failure_modes (w : Weather) (r : XElem) (hw : w.root = some r) :
    (findE r "temp_f" = none →
      (temperature w).1 = Except.error (PyErr.attributeError noTextMsg)) ∧
    (∀ s, findE r "temp_f" = some (some s) → parseFloat s = none →
      (temperature w).1 = Except.error (PyErr.valueError (floatConvMsg s))) ∧
    (∀ s q, findE r "temp_f" = some (some s) → parseFloat s = some q →
      findE r "temp_c" = none →
      (temperature w).1 = Except.error (PyErr.attributeError noTextMsg)) ∧
    (findE r "dewpoint_c" = none →
      (dewpoint w).1 = Except.error (PyErr.attributeError noTextMsg)) ∧
    (∀ s, findE r "dewpoint_c" = some (some s) → parseFloat s = none →
      (dewpoint w).1 = Except.error (PyErr.valueError (floatConvMsg s))) ∧
    (findE r "pressure_mb" = none →
      (pressure w).1 = Except.error (PyErr.attributeError noTextMsg)) ∧
    (∀ s, findE r "pressure_mb" = some (some s) → parseFloat s = none →
      (pressure w).1 = Except.error (PyErr.valueError (floatConvMsg s))) ∧
    (findE r "pressure_in" = none →
      (altimeter w).1 = Except.error (PyErr.attributeError noTextMsg)) ∧
    (∀ s, findE r "pressure_in" = some (some s) → parseFloat s = none →
      (altimeter w).1 = Except.error (PyErr.valueError (floatConvMsg s))) ∧
    (findE r "visibility_mi" = none →
      (visibility w).1 = Except.error (PyErr.attributeError noTextMsg)) ∧
    (∀ s, findE r "visibility_mi" = some (some s) → parseFloat s = none →
      (visibility w).1 = Except.error (PyErr.valueError (floatConvMsg s))) ∧
    (findE r "relative_humidity" = none →
      (relative_humidity w).1 = Except.error (PyErr.attributeError noTextMsg)) ∧
    (∀ s, findE r "relative_humidity" = some (some s) →
      (relative_humidity w).1 = Except.ok (s ++ "%")) := by
  refine ⟨?_, ?_, ?_, ?_, ?_, ?_, ?_, ?_, ?_, ?_, ?_, ?_, ?_⟩
  · intro h
    simp [temperature, readFloatField, readTextField, getRoot, hw, h, textOf]
  · intro s h hp
    simp [temperature, readFloatField, readTextField, getRoot, hw, h, textOf,
      pyFloat, hp]
  · intro s q h hp h2
    simp [temperature, readFloatField, readTextField, getRoot, hw, h, h2,
      textOf, pyFloat, hp]
  · intro h
    simp [dewpoint, readFloatField, readTextField, getRoot, hw, h, textOf]
  · intro s h hp
    simp [dewpoint, readFloatField, readTextField, getRoot, hw, h, textOf,
      pyFloat, hp]
  · intro h
    simp [pressure, readFloatField, readTextField, getRoot, hw, h, textOf]
  · intro s h hp
    simp [pressure, readFloatField, readTextField, getRoot, hw, h, textOf,
      pyFloat, hp]
  · intro h
    simp [altimeter, readFloatField, readTextField, getRoot, hw, h, textOf]
  · intro s h hp
    simp [altimeter, readFloatField, readTextField, getRoot, hw, h, textOf,
      pyFloat, hp]
  · intro h
    simp [visibility, readFloatField, readTextField, getRoot, hw, h, textOf]
  · intro s h hp
    simp [visibility, readFloatField, readTextField, getRoot, hw, h, textOf,
      pyFloat, hp]
  · intro h
    simp [relative_humidity, readTextField, getRoot, hw, h, textOf]
  · intro s h
    simp [relative_humidity, readTextField, getRoot, hw, h, textOf]

/-- Witness for C4 (amended): on the empty parsed tree `temperature` raises
the missing-element `AttributeError`; on a tree whose `relative_humidity`
text is `"abc"`, the accessor succeeds with `"abc%"`. -/
theorem bound_accessor_failure_modes_witness :
    (temperature wNoFields).1 = Except.error (PyErr.attributeError noTextMsg) ∧
    (relative_humidity wBadHum).1 = Except.ok ("abc" ++ "%") :=
  ⟨(bound_accessor_failure_modes wNoFields [] rfl).1 rfl,
   (bound_accessor_failure_modes wBadHum [("relative_humidity", some "abc")]
     rfl).2.2.2.2.2.2.2.2.2.2.2.2 "abc" rfl⟩

/-- Counterexample to claim C5 as stated: the numeric values are NOT passed
through as given by the source — on a document whose `temp_f` text is
`"72"`, `temperature` renders `"72.0°F (22.2°C)"`, reformatting the source
text `"72"` to `"72.0"` via the float round-trip. -/
theorem temperature_reformats_source_text :
    wIntTemp.root = some [("temp_f", some "72"), ("temp_c", some "22.2")] ∧
    (temperature wIntTemp).1 = Except.ok "72.0°F (22.2°C)" ∧
    (temperature wIntTemp).1 ≠ Except.ok "72°F (22.2°C)" :=
  ⟨rfl, rfl, by decide⟩

/-- Claim C5 amended: `temperature` parses `temp_f` and `temp_c` as floats
and renders `"<F>°F (<C>°C)"` through Python float formatting (canonical
decimal with at least one fractional digit), so source texts already in
that canonical form pass through unchanged; in particular the KLNK
end-to-end example with `temp_f` text `"72.0"` and `temp_c` text `"22.2"`
yields exactly `"72.0°F (22.2°C)"`. -/
theorem temperature_format :
    (temperature wKlnk).1 = Except.ok "72.0°F (22.2°C)" ∧
    ∀ (w : Weather) (r : XElem) (sf sc : String) (f c : Dec),
      w.root = some r →
      findE r "temp_f" = some (some sf) → parseFloat sf = some f →
      findE r "temp_c" = some (some sc) → parseFloat sc = some c →
      (temperature w).1 = Except.ok (floatRepr f ++ "°F (" ++ floatRepr c ++ "°C)") := by
  refine ⟨rfl, ?_⟩
  intro w r sf sc f c hw h1 h2 h3 h4
  simp [temperature, readFloatField, readTextField, getRoot, hw, h1, h3,
    textOf, pyFloat, h2, h4]

/-- Witness for C5 (amended) on the KLNK Observation. -/
theorem temperature_format_witness :
    (temperature wKlnk).1 =
      Except.ok (floatRepr ⟨720, 1⟩ ++ "°F (" ++ floatRepr ⟨222, 1⟩ ++ "°C)") :=
  temperature_format.2 wKlnk klnkRoot "72.0" "22.2" ⟨720, 1⟩ ⟨222, 1⟩
    rfl rfl rfl rfl rfl
